import Mathlib

/-!
# Verification of `synalinks-memory-cli` (`src/synalinks_memory_cli/main.py`)

A shallow embedding of the CLI's command router, its per-command handlers
(`list`, `execute`, `search`, `add`, hidden `_ask`) and its cell-formatting
helper, with proofs of the spec's testable properties.

Python strings that are inspected character-by-character (cell values) are
embedded as `List Char`; strings that are only concatenated or compared are
embedded as `String`.  Python exception control-flow (`try`/`except`/`finally`,
`sys.exit`) is embedded explicitly as an exception-plus-state monad.
-/

namespace SynalinksCLI

/-! ## Cell formatting (`_format_cell`, main.py lines 256-263) -/

/-- The style argument of a `rich.text.Text`: either the default or the
`"dim italic"` style used for the null placeholder. -/
inductive Style where
  | plain
  | dimItalic
  deriving DecidableEq, Repr

/-- A `rich.text.Text` value: the character content plus its style. -/
structure RichText where
  text : List Char
  style : Style
  deriving DecidableEq, Repr

/-- A Python cell value as seen by `_format_cell`: either `None`, or an
object whose `str(...)` form is the given character list. -/
def PyVal : Type := Option (List Char)

instance : DecidableEq PyVal := by unfold PyVal; infer_instance

instance : Repr PyVal := by unfold PyVal; infer_instance

/-- `_format_cell` (main.py 256-263): `None` renders as a dim-italic
`"null"`; any other value is stringified and, when longer than 80
characters, truncated to its first 77 characters plus `"..."`. -/
def format_cell : PyVal → RichText
  | none => ⟨"null".toList, .dimItalic⟩
  | some v =>
    let s := v
    if s.length > 80 then ⟨s.take 77 ++ "...".toList, .plain⟩
    else ⟨s, .plain⟩

/-- A result row is a Python dict from column name to value.  We embed it as
an association list; `row.get(name)` returns `None` when the key is absent. -/
def Row : Type := List (String × PyVal)

/-- `row.get(col.name)`: dict lookup defaulting to `None`. -/
def rowGet (row : Row) (key : String) : PyVal :=
  match row.lookup key with
  | some v => v
  | none => none

/-- One column of a result set (only its `name` is used by the CLI). -/
structure Column where
  name : String
  deriving DecidableEq, Repr

/-- The cell list built for one table row in `execute` (main.py 152) and
`search` (main.py 190): `[_format_cell(row.get(col.name)) for col in
result.columns]`. -/
def renderRow (columns : List Column) (row : Row) : List RichText :=
  columns.map (fun c => format_cell (rowGet row c.name))

/-! ## The command router (`_DefaultAskGroup.resolve_command`, main.py 38-43) -/

/-- The names registered on the click group: the four public subcommands and
the hidden `_ask` command (main.py 62, 98, 162, 200, 232). -/
def commandNames : List String := ["list", "execute", "search", "add", "_ask"]

/-- `_DefaultAskGroup.resolve_command` (main.py 38-43).  Given the argument
tokens remaining after the global options, it returns the resolved command
name together with the tokens handed to that command, or `none` when click's
base resolution fails (empty argument list, or an empty-string first token,
which is falsy in Python and is not a registered command).  A nonempty first
token that is not a registered command routes the *entire* token list to
`_ask`; a registered command name consumes the first token. -/
def resolveCommand (args : List String) : Option (String × List String) :=
  match args with
  | [] => none
  | cmd :: rest =>
    if cmd ≠ "" ∧ cmd ∉ commandNames then some ("_ask", cmd :: rest)
    else if cmd ∈ commandNames then some (cmd, rest)
    else none

/-- `" ".join(question)` in `_ask_cmd` (main.py 237). -/
def fullQuestion (question : List String) : String :=
  String.intercalate " " question

/-- The question string the ask operation receives for a given invocation,
or `none` when the router does not dispatch to `_ask`: the composition of
`resolveCommand` with `_ask_cmd`'s joining of its argument tuple. -/
def routedQuestion (args : List String) : Option String :=
  match resolveCommand args with
  | some (name, handed) => if name = "_ask" then some (fullQuestion handed) else none
  | none => none

/-! ## Runtime model: Python exceptions, the client resource, and output

Each command handler runs single-threadedly, may raise `SynalinksError`
(from a remote call) or `SystemExit` (from `sys.exit`), always runs its
`finally: client.close()` block, and writes to stdout / stderr.  We embed
this as a state-passing function returning `Except PyExc α` together with a
trace of the side effects. -/

/-- A Python exception relevant to the CLI: a `SynalinksError` carrying its
`.message`, or the `SystemExit` raised by `sys.exit(code)`. -/
inductive PyExc where
  | synalinks (message : String)
  | systemExit (code : Nat)
  deriving DecidableEq, Repr

/-- A call made on the `SynalinksMemory` client, with the arguments the CLI
passes (main.py 68, 121, 134, 172, 210, 240). -/
inductive RemoteCall where
  | listP
  | executeFile (predicate : String) (fmt : String) (limit offset : Int) (output : String)
  | executeTable (predicate : String) (limit offset : Int)
  | searchR (predicate : String) (keywords : String) (limit offset : Int)
  | uploadR (file : String) (name description : Option String) (overwrite : Bool)
  | askR (question : String)
  deriving DecidableEq, Repr

/-- One thing printed to stdout by the `rich` console: a markup string, a
table (title, optional caption, column names, rendered cell rows), a
markdown answer, or the `Saved <path> (<n> KB)` confirmation (whose byte
count we keep exact rather than formatting the KB float). -/
inductive OutEvent where
  | line (s : String)
  | table (title : String) (caption : Option String)
      (columns : List String) (rows : List (List RichText))
  | markdown (s : String)
  | saved (path : String) (bytes : Nat)
  deriving DecidableEq, Repr

/-- The observable side effects of one CLI invocation. -/
structure Trace where
  clientsCreated : Nat
  closes : Nat
  remoteCalls : List RemoteCall
  stdout : List OutEvent
  stderr : List String
  deriving DecidableEq, Repr

/-- The empty trace at process start. -/
def Trace.init : Trace := ⟨0, 0, [], [], []⟩

/-- The command monad: state-passing over the trace with Python exceptions. -/
def M (α : Type) : Type := Trace → Except PyExc α × Trace

/-- Sequencing: an exception aborts the rest of the computation. -/
def M.bind {α β : Type} (x : M α) (f : α → M β) : M β := fun t =>
  match x t with
  | (.ok a, t1) => f a t1
  | (.error e, t1) => (.error e, t1)

/-- Return a value without side effects. -/
def M.pure {α : Type} (a : α) : M α := fun t => (.ok a, t)

instance : Monad M where
  pure := M.pure
  bind := M.bind

/-- `sys.exit(code)`: raises `SystemExit`. -/
def sysExit {α : Type} (code : Nat) : M α := fun t => (.error (.systemExit code), t)

/-- Raise a `SynalinksError` with the given message. -/
def raiseSyn {α : Type} (message : String) : M α := fun t =>
  (.error (.synalinks message), t)

/-- `console.print(...)`. -/
def printOut (e : OutEvent) : M Unit := fun t =>
  (.ok (), { t with stdout := t.stdout ++ [e] })

/-- `err_console.print(...)` (a markup string). -/
def printErr (s : String) : M Unit := fun t =>
  (.ok (), { t with stderr := t.stderr ++ [s] })

/-- Successful construction of a `SynalinksMemory` client. -/
def newClient : M Unit := fun t =>
  (.ok (), { t with clientsCreated := t.clientsCreated + 1 })

/-- `client.close()`. -/
def closeClient : M Unit := fun t =>
  (.ok (), { t with closes := t.closes + 1 })

/-- A remote client call: records the call, then either returns the
environment-provided result or raises `SynalinksError` with the
environment-provided message. -/
def remote {α : Type} (call : RemoteCall) (outcome : Except String α) : M α := fun t =>
  let t1 := { t with remoteCalls := t.remoteCalls ++ [call] }
  match outcome with
  | .ok a => (.ok a, t1)
  | .error msg => (.error (.synalinks msg), t1)

/-- Python `try: body except SynalinksError as exc: handler finally: fin`.
The handler runs only for `SynalinksError`; the `finally` block always runs,
and an exception escaping it overrides the pending result. -/
def tryExceptFinally {α : Type} (body : M α) (handler : String → M α)
    (fin : M Unit) : M α := fun t =>
  let (r, t1) := body t
  let (r2, t2) :=
    match r with
    | .error (.synalinks msg) => handler msg t1
    | _ => (r, t1)
  let (rf, t3) := fin t2
  match rf with
  | .ok _ => (r2, t3)
  | .error e => (.error e, t3)

/-- The `except SynalinksError` handler every command uses
(`err_console.print(f"[red]Error:[/red] {exc.message}"); sys.exit(1)`). -/
def errorExit {α : Type} (message : String) : M α := do
  printErr ("[red]Error:[/red] " ++ message)
  sysExit 1

/-- `_get_client` (main.py 17-28): construct the client, or on a
`SynalinksError` from the constructor print the error and `sys.exit(1)`
without any client having been created. -/
def getClient (ctor : Except String Unit) : M Unit :=
  match ctor with
  | .ok _ => newClient
  | .error msg => errorExit msg

/-! ## Result payloads returned by the client -/

/-- One predicate entry in the `list` result (name and description). -/
structure PredInfo where
  name : String
  description : String
  deriving DecidableEq, Repr

/-- The `client.list()` result: tables, concepts and rules. -/
structure ListResult where
  tables : List PredInfo
  concepts : List PredInfo
  rules : List PredInfo
  deriving DecidableEq, Repr

instance : DecidableEq Row := by unfold Row; infer_instance

instance : Repr Row := by unfold Row; infer_instance

/-- The `client.execute(...)` / `client.search(...)` result: column metadata,
rows, and pagination counts. -/
structure QueryResult where
  columns : List Column
  rows : List Row
  row_count : Nat
  total_rows : Nat
  offset : Int
  deriving DecidableEq, Repr

/-- The `client.upload(...)` result. -/
structure UploadResult where
  predicate : String
  columns : List Column
  row_count : Nat
  deriving DecidableEq, Repr

/-- A cell of a table built by the CLI from a plain Python string
(no per-cell style is passed to `add_row` for these). -/
def plainCell (s : String) : RichText := ⟨s.toList, .plain⟩

/-! ## The five command handlers -/

/-- `list_predicates` (main.py 62-90). -/
def runList (ctor : Except String Unit) (remoteList : Except String ListResult) :
    M Unit := do
  getClient ctor
  let preds ← tryExceptFinally (remote .listP remoteList) errorExit closeClient
  let rows : List (List String) :=
    preds.tables.map (fun p => ["table", p.name, p.description])
    ++ preds.concepts.map (fun p => ["concept", p.name, p.description])
    ++ preds.rules.map (fun p => ["rule", p.name, p.description])
  if rows.length = 0 then
    printOut (.line "[dim]No predicates found.[/dim]")
  else
    printOut (.table "Predicates" none ["Type", "Name", "Description"]
      (rows.map (fun r => r.map plainCell)))

/-- The values of `click.Choice(["json", "csv", "parquet"])` (main.py 102). -/
inductive Fmt where
  | json
  | csv
  | parquet
  deriving DecidableEq, Repr

/-- The string value of a format choice. -/
def Fmt.ext : Fmt → String
  | .json => "json"
  | .csv => "csv"
  | .parquet => "parquet"

/-- Python truthiness of an optional string option: `None` and the empty
string are falsy. -/
def truthyStr : Option String → Bool
  | none => false
  | some s => s ≠ ""

/-- The caption f-string of the `execute` table (main.py 147). -/
def executeCaption (q : QueryResult) : String :=
  "Showing " ++ toString q.row_count ++ " of " ++ toString q.total_rows
    ++ " rows (offset " ++ toString q.offset ++ ")"

/-- `execute` (main.py 98-154).  `remoteFile` is the byte string returned in
file-extract mode (we record its length, the only use the CLI makes of it);
`remoteTable` is the result in table mode. -/
def runExecute (predicate : String) (limit offset : Int) (fmt : Option Fmt)
    (output : Option String) (ctor : Except String Unit)
    (remoteFile : Except String Nat) (remoteTable : Except String QueryResult) :
    M Unit := do
  if truthyStr output && fmt.isNone then do
    printErr "[red]Error:[/red] --output requires --format (-f)."
    (sysExit 1 : M Unit)
  else pure ()
  getClient ctor
  match fmt with
  | some f =>
    let out := match output with
      | none => predicate ++ "." ++ f.ext
      | some o => o
    let data ← tryExceptFinally
      (remote (.executeFile predicate f.ext limit offset out) remoteFile)
      errorExit closeClient
    printOut (.saved out data)
  | none =>
    let result ← tryExceptFinally
      (remote (.executeTable predicate limit offset) remoteTable)
      errorExit closeClient
    if result.rows = [] then
      printOut (.line ("[dim]No rows in " ++ predicate ++ ".[/dim]"))
    else
      printOut (.table predicate (some (executeCaption result))
        (result.columns.map Column.name)
        (result.rows.map (renderRow result.columns)))

/-- The zero-result message of `search` (main.py 180). -/
def noResultsMsg (keywords predicate : String) : String :=
  "[dim]No results for \"" ++ keywords ++ "\" in " ++ predicate ++ ".[/dim]"

/-- `search` (main.py 162-192). -/
def runSearch (predicate keywords : String) (limit offset : Int)
    (ctor : Except String Unit) (remoteSearch : Except String QueryResult) :
    M Unit := do
  getClient ctor
  let result ← tryExceptFinally
    (remote (.searchR predicate keywords limit offset) remoteSearch)
    errorExit closeClient
  if result.rows = [] then
    printOut (.line (noResultsMsg keywords predicate))
  else
    printOut (.table ("Search \"" ++ keywords ++ "\" in " ++ predicate)
      (some ("Showing " ++ toString result.row_count ++ " of "
        ++ toString result.total_rows ++ " rows"))
      (result.columns.map Column.name)
      (result.rows.map (renderRow result.columns)))

/-- `upload` / `add` (main.py 200-224). -/
def runUpload (file : String) (name description : Option String)
    (overwrite : Bool) (ctor : Except String Unit)
    (remoteUpload : Except String UploadResult) : M Unit := do
  getClient ctor
  let result ← tryExceptFinally
    (remote (.uploadR file name description overwrite) remoteUpload)
    errorExit closeClient
  let col_names := if result.columns = [] then "-"
    else String.intercalate ", " (result.columns.map Column.name)
  printOut (.table "Upload Result" none ["Predicate", "Columns", "Rows"]
    [[plainCell result.predicate, plainCell col_names,
      plainCell (toString result.row_count)]])

/-- `_ask_cmd` (main.py 232-248).  click's `nargs=-1, required=True`
argument makes an empty question tuple a usage error (exit code 2) raised
before the callback body runs, so no client is constructed in that case. -/
def runAsk (question : List String) (ctor : Except String Unit)
    (remoteAsk : Except String String) : M Unit := do
  if question = [] then (sysExit 2 : M Unit) else pure ()
  let full := fullQuestion question
  getClient ctor
  let answer ← tryExceptFinally (remote (.askR full) remoteAsk)
    errorExit closeClient
  printOut (.markdown answer)

/-! ## Whole invocations -/

deriving instance DecidableEq for Except

/-- One parsed invocation of the CLI: the resolved subcommand with its
parsed parameters, together with the environment's behaviour for the client
constructor and for the remote call the handler would make. -/
inductive Invocation where
  | listC (ctor : Except String Unit) (remoteList : Except String ListResult)
  | executeC (predicate : String) (limit offset : Int) (fmt : Option Fmt)
      (output : Option String) (ctor : Except String Unit)
      (remoteFile : Except String Nat) (remoteTable : Except String QueryResult)
  | searchC (predicate keywords : String) (limit offset : Int)
      (ctor : Except String Unit) (remoteSearch : Except String QueryResult)
  | addC (file : String) (name description : Option String) (overwrite : Bool)
      (ctor : Except String Unit) (remoteUpload : Except String UploadResult)
  | askC (question : List String) (ctor : Except String Unit)
      (remoteAsk : Except String String)
  deriving DecidableEq, Repr

/-- Run one invocation from process start: the final outcome (`.ok ()` is
exit status 0; `.error (.systemExit c)` is exit status `c`) and the trace. -/
def runInvocation : Invocation → Except PyExc Unit × Trace
  | .listC c r => runList c r Trace.init
  | .executeC p l o f out c rf rt => runExecute p l o f out c rf rt Trace.init
  | .searchC p k l o c r => runSearch p k l o c r Trace.init
  | .addC f n d ov c r => runUpload f n d ov c r Trace.init
  | .askC q c r => runAsk q c r Trace.init

/-- Is the given environment outcome an error? -/
def isErr {α : Type} : Except String α → Bool
  | .error _ => true
  | .ok _ => false

/-- Did this invocation reach a remote call whose outcome is an error?
(The client constructor succeeded, no earlier usage error fired, and the
outcome supplied for the call the handler makes is an error.) -/
def Invocation.remoteErrored : Invocation → Bool
  | .listC ctor r => !isErr ctor && isErr r
  | .executeC _ _ _ fmt output ctor rf rt =>
      !(truthyStr output && fmt.isNone) && !isErr ctor
        && (match fmt with
            | some _ => isErr rf
            | none => isErr rt)
  | .searchC _ _ _ _ ctor r => !isErr ctor && isErr r
  | .addC _ _ _ _ ctor r => !isErr ctor && isErr r
  | .askC q ctor r => !q.isEmpty && !isErr ctor && isErr r

/-! ## click option resolution for the query parameters -/

/-- `--limit` resolution: the value given on the command line, or the
declared `default=20` (main.py 100, 165). -/
def resolveLimit (supplied : Option Int) : Int := supplied.getD 20

/-- `--offset` resolution: the value given on the command line, or the
declared `default=0` (main.py 101, 166). -/
def resolveOffset (supplied : Option Int) : Int := supplied.getD 0

/-! ## Helper lemmas -/

/-- Unfolding `_format_cell` on a long value. -/
lemma format_cell_long (s : List Char) (h : s.length > 80) :
    format_cell (some s) = ⟨s.take 77 ++ "...".toList, .plain⟩ := by
  simp [format_cell, h]

/-- Unfolding `_format_cell` on a short value. -/
lemma format_cell_short (s : List Char) (h : ¬ s.length > 80) :
    format_cell (some s) = ⟨s, .plain⟩ := by
  simp [format_cell, h]

/-- The truncated rendering is exactly 80 characters long. -/
lemma trunc_length (s : List Char) (h : 77 ≤ s.length) :
    (s.take 77 ++ "...".toList).length = 80 := by
  rw [List.length_append, List.length_take, min_eq_left h]
  decide

/-! ## Claim theorems -/

/-- C1, counterexample.  The claim quantifies over first tokens not matching
`list`/`execute`/`search`/`add`, but the hidden `_ask` command is also
registered: `["_ask", "hello"]` has a first token outside the claim's four
names, yet the question passed to ask is `"hello"`, not the full sequence
`"_ask hello"` joined; and the first token `""` (also outside the four
names) aborts with a usage error instead of reaching ask at all. -/
theorem routedQuestion_claim_counterexample :
    ("_ask" ∉ ["list", "execute", "search", "add"] ∧
      routedQuestion ["_ask", "hello"] ≠
        some (String.intercalate " " ["_ask", "hello"])) ∧
    ("" ∉ ["list", "execute", "search", "add"] ∧
      routedQuestion ["", "hello"] = none) := by decide

/-- C1, amended.  For every invocation whose first token is nonempty and
does not match any *registered* command name (`list`, `execute`, `search`,
`add`, or the hidden `_ask`), the router invokes the ask operation and the
question it passes is the full remaining token sequence joined by single
spaces. -/
theorem routedQuestion_default_ask (first : String) (rest : List String)
    (h1 : first ≠ "") (h2 : first ∉ commandNames) :
    routedQuestion (first :: rest) =
      some (String.intercalate " " (first :: rest)) := by
  simp only [routedQuestion, resolveCommand]
  rw [if_pos ⟨h1, h2⟩]
  rfl

/-- C1, witness: the spec's own example. -/
theorem routedQuestion_default_ask_witness :
    ("How" ≠ "" ∧ "How" ∉ commandNames) ∧
    routedQuestion ["How", "are", "sales"] = some "How are sales" :=
  ⟨by decide, routedQuestion_default_ask "How" ["are", "sales"]
    (by decide) (by decide)⟩

/-- C4.  Any cell value whose string form is longer than 80 characters is
rendered as exactly its first 77 characters followed by the 3-character
marker `"..."`, for a total of exactly 80 characters. -/
theorem format_cell_truncates (s : List Char) (h : s.length > 80) :
    format_cell (some s) = ⟨s.take 77 ++ "...".toList, .plain⟩ ∧
    ("...".toList).length = 3 ∧
    (format_cell (some s)).text.length = 80 := by
  have hfc := format_cell_long s h
  refine ⟨hfc, by decide, ?_⟩
  rw [hfc]
  exact trunc_length s (by omega)

/-- C4, witness: an 81-character value renders at exactly 80 characters. -/
theorem format_cell_truncates_witness :
    (List.replicate 81 'a').length > 80 ∧
    (format_cell (some (List.replicate 81 'a'))).text.length = 80 :=
  ⟨by simp, (format_cell_truncates (List.replicate 81 'a') (by simp)).2.2⟩

/-- C9.  `_format_cell` is total on `None` and arbitrary stringified
values, always renders at most 80 characters, and re-formatting an
already-rendered cell string leaves the rendered text unchanged
(truncation is idempotent). -/
theorem format_cell_bounded_idempotent (v : PyVal) :
    (format_cell v).text.length ≤ 80 ∧
    (format_cell (some (format_cell v).text)).text = (format_cell v).text := by
  match v with
  | none => exact ⟨by decide, by decide⟩
  | some s =>
    by_cases h : s.length > 80
    · rw [format_cell_long s h]
      have hlen : (s.take 77 ++ "...".toList).length = 80 :=
        trunc_length s (by omega)
      constructor
      · show (s.take 77 ++ "...".toList).length ≤ 80
        omega
      · show (format_cell (some (s.take 77 ++ "...".toList))).text
          = s.take 77 ++ "...".toList
        rw [format_cell_short _ (by omega)]
    · rw [format_cell_short s h]
      refine ⟨by simpa using Nat.le_of_not_lt h, ?_⟩
      show (format_cell (some s)).text = s
      rw [format_cell_short s h]


/-- C2.  Every Memory Client instance created for an invocation is closed
exactly once on both success and failure paths (the trace's `closes` count
always equals its `clientsCreated` count), and whenever the remote call of
any of the five operations raises a `SynalinksError`, `close` has been
invoked exactly once and the process exits with status 1. -/
theorem client_closed_once (inv : Invocation) :
    (runInvocation inv).2.closes = (runInvocation inv).2.clientsCreated ∧
    (inv.remoteErrored = true →
      (runInvocation inv).2.closes = 1 ∧
      (runInvocation inv).1 = Except.error (.systemExit 1)) := by
  cases inv with
  | listC ctor r =>
    cases ctor with
    | error m => exact ⟨rfl, by simp [Invocation.remoteErrored, isErr]⟩
    | ok u =>
      cases r with
      | error m => exact ⟨rfl, fun _ => ⟨rfl, rfl⟩⟩
      | ok lr =>
        refine ⟨?_, by simp [Invocation.remoteErrored, isErr]⟩
        simp only [runInvocation, runList, getClient, newClient, tryExceptFinally,
          remote, errorExit, printErr, printOut, sysExit, closeClient,
          Bind.bind, M.bind, Pure.pure, M.pure, Trace.init, bind, pure]
        split <;> rfl
  | searchC p k l o ctor r =>
    cases ctor with
    | error m => exact ⟨rfl, by simp [Invocation.remoteErrored, isErr]⟩
    | ok u =>
      cases r with
      | error m => exact ⟨rfl, fun _ => ⟨rfl, rfl⟩⟩
      | ok q =>
        refine ⟨?_, by simp [Invocation.remoteErrored, isErr]⟩
        simp only [runInvocation, runSearch, getClient, newClient, tryExceptFinally,
          remote, errorExit, printErr, printOut, sysExit, closeClient,
          Bind.bind, M.bind, Pure.pure, M.pure, Trace.init, bind, pure]
        split <;> rfl
  | addC f n d ov ctor r =>
    cases ctor with
    | error m => exact ⟨rfl, by simp [Invocation.remoteErrored, isErr]⟩
    | ok u =>
      cases r with
      | error m => exact ⟨rfl, fun _ => ⟨rfl, rfl⟩⟩
      | ok ur => exact ⟨rfl, by simp [Invocation.remoteErrored, isErr]⟩
  | askC q ctor r =>
    cases hq : q with
    | nil => exact ⟨rfl, by simp [Invocation.remoteErrored, isErr]⟩
    | cons a as =>
      cases ctor with
      | error m => exact ⟨rfl, by simp [Invocation.remoteErrored, isErr]⟩
      | ok u =>
        cases r with
        | error m => exact ⟨rfl, fun _ => ⟨rfl, rfl⟩⟩
        | ok ans => exact ⟨rfl, by simp [Invocation.remoteErrored, isErr]⟩
  | executeC p l o fmt out ctor rf rt =>
    by_cases husage : truthyStr out && fmt.isNone
    · refine ⟨?_, by simp [Invocation.remoteErrored, husage]⟩
      simp only [runInvocation, runExecute, husage, getClient, newClient,
        tryExceptFinally, remote, errorExit, printErr, printOut, sysExit,
        closeClient, Bind.bind, M.bind, Pure.pure, M.pure, Trace.init, bind, pure,
        if_true]
    · cases ctor with
      | error m =>
        refine ⟨?_, by simp [Invocation.remoteErrored, isErr]⟩
        simp only [runInvocation, runExecute, husage, getClient, newClient,
          tryExceptFinally, remote, errorExit, printErr, printOut, sysExit,
          closeClient, Bind.bind, M.bind, Pure.pure, M.pure, Trace.init, bind, pure,
          if_false, Bool.false_eq_true, ite_false]
      | ok u =>
        cases fmt with
        | some f =>
          cases rf with
          | error m =>
            refine ⟨?_, fun _ => ⟨?_, ?_⟩⟩ <;>
              simp only [runInvocation, runExecute, husage, getClient, newClient,
                tryExceptFinally, remote, errorExit, printErr, printOut, sysExit,
                closeClient, Bind.bind, M.bind, Pure.pure, M.pure, Trace.init,
                bind, pure, if_false, Bool.false_eq_true, ite_false]
          | ok nbytes =>
            refine ⟨?_, by simp [Invocation.remoteErrored, husage, isErr]⟩
            simp only [runInvocation, runExecute, husage, getClient, newClient,
              tryExceptFinally, remote, errorExit, printErr, printOut, sysExit,
              closeClient, Bind.bind, M.bind, Pure.pure, M.pure, Trace.init,
              bind, pure, if_false, Bool.false_eq_true, ite_false]
        | none =>
          cases rt with
          | error m =>
            refine ⟨?_, fun _ => ⟨?_, ?_⟩⟩ <;>
              simp only [runInvocation, runExecute, husage, getClient, newClient,
                tryExceptFinally, remote, errorExit, printErr, printOut, sysExit,
                closeClient, Bind.bind, M.bind, Pure.pure, M.pure, Trace.init,
                bind, pure, if_false, Bool.false_eq_true, ite_false]
          | ok qres =>
            refine ⟨?_, by simp [Invocation.remoteErrored, husage, isErr]⟩
            simp only [runInvocation, runExecute, husage, getClient, newClient,
              tryExceptFinally, remote, errorExit, printErr, printOut, sysExit,
              closeClient, Bind.bind, M.bind, Pure.pure, M.pure, Trace.init,
              bind, pure, if_false, Bool.false_eq_true, ite_false]
            split <;> rfl

/-- C2, witness: a failing `list` call closes the client once and exits 1. -/
theorem client_closed_once_witness :
    (Invocation.listC (.ok ()) (.error "boom")).remoteErrored = true ∧
    (runInvocation (.listC (.ok ()) (.error "boom"))).2.closes = 1 ∧
    (runInvocation (.listC (.ok ()) (.error "boom"))).1 =
      Except.error (.systemExit 1) :=
  ⟨by decide, (client_closed_once (.listC (.ok ()) (.error "boom"))).2 (by decide)⟩


/-- C3, counterexample.  The usage check is `if output and not fmt:`, and
the empty string is falsy in Python: invoking `execute` with `--output ""`
and no format does NOT exit with status 1 — it constructs a client, makes
the table-mode remote call, and succeeds. -/
theorem execute_usage_counterexample :
    (runInvocation (.executeC "Sales" 20 0 none (some "") (.ok ())
        (.ok 0) (.ok ⟨[], [], 0, 0, 0⟩))).2.clientsCreated = 1 ∧
    (runInvocation (.executeC "Sales" 20 0 none (some "") (.ok ())
        (.ok 0) (.ok ⟨[], [], 0, 0, 0⟩))).2.remoteCalls
      = [.executeTable "Sales" 20 0] ∧
    (runInvocation (.executeC "Sales" 20 0 none (some "") (.ok ())
        (.ok 0) (.ok ⟨[], [], 0, 0, 0⟩))).1 = .ok () := by decide

/-- C3, amended.  `execute` invoked with a *nonempty* output path and no
format exits with status 1 after printing the usage error, without
constructing a Memory Client and without making any remote call. -/
theorem execute_output_requires_format (predicate : String) (limit offset : Int)
    (p : String) (ctor : Except String Unit) (rf : Except String Nat)
    (rt : Except String QueryResult) (hp : p ≠ "") :
    (runInvocation (.executeC predicate limit offset none (some p) ctor rf rt)).1
      = Except.error (.systemExit 1) ∧
    (runInvocation (.executeC predicate limit offset none (some p) ctor
        rf rt)).2.clientsCreated = 0 ∧
    (runInvocation (.executeC predicate limit offset none (some p) ctor
        rf rt)).2.remoteCalls = [] ∧
    (runInvocation (.executeC predicate limit offset none (some p) ctor
        rf rt)).2.stderr
      = ["[red]Error:[/red] --output requires --format (-f)."] := by
  have hb : (truthyStr (some p) && (none : Option Fmt).isNone) = true := by
    simp [truthyStr, hp]
  refine ⟨?_, ?_, ?_, ?_⟩ <;>
    simp only [runInvocation, runExecute, hb, getClient, newClient,
      tryExceptFinally, remote, errorExit, printErr, printOut, sysExit,
      closeClient, Bind.bind, M.bind, Pure.pure, M.pure, Trace.init, bind,
      pure, if_true] <;> rfl

/-- C3, witness: a nonempty output path without a format is rejected
before any client exists. -/
theorem execute_output_requires_format_witness :
    ("out.csv" ≠ "") ∧
    (runInvocation (.executeC "Sales" 20 0 none (some "out.csv") (.ok ())
        (.ok 0) (.ok ⟨[], [], 0, 0, 0⟩))).1 = Except.error (.systemExit 1) ∧
    (runInvocation (.executeC "Sales" 20 0 none (some "out.csv") (.ok ())
        (.ok 0) (.ok ⟨[], [], 0, 0, 0⟩))).2.clientsCreated = 0 :=
  ⟨by decide,
    (execute_output_requires_format "Sales" 20 0 "out.csv" (.ok ())
      (.ok 0) (.ok ⟨[], [], 0, 0, 0⟩) (by decide)).1,
    ((execute_output_requires_format "Sales" 20 0 "out.csv" (.ok ())
      (.ok 0) (.ok ⟨[], [], 0, 0, 0⟩) (by decide)).2).1⟩

/-- C5.  A `search` whose result has zero rows prints exactly one
"no results" line whose text embeds both the keywords and the predicate
name, and the process exits with status 0 (the run ends in `.ok`). -/
theorem search_no_results (predicate keywords : String) (limit offset : Int)
    (q : QueryResult) (hq : q.rows = []) :
    (runInvocation (.searchC predicate keywords limit offset (.ok ())
        (.ok q))).1 = .ok () ∧
    (runInvocation (.searchC predicate keywords limit offset (.ok ())
        (.ok q))).2.stdout = [.line (noResultsMsg keywords predicate)] ∧
    noResultsMsg keywords predicate =
      "[dim]No results for \"" ++ keywords ++ "\" in " ++ predicate
        ++ ".[/dim]" := by
  refine ⟨?_, ?_, rfl⟩ <;>
    simp only [runInvocation, runSearch, getClient, newClient,
      tryExceptFinally, remote, errorExit, printErr, printOut, sysExit,
      closeClient, Bind.bind, M.bind, Pure.pure, M.pure, Trace.init, bind,
      pure, hq, if_pos] <;> rfl

/-- C5, witness: an empty search result exits 0 with the message. -/
theorem search_no_results_witness :
    (QueryResult.mk [] [] 0 0 0).rows = [] ∧
    (runInvocation (.searchC "Sales" "west" 20 0 (.ok ())
        (.ok ⟨[], [], 0, 0, 0⟩))).1 = .ok () ∧
    (runInvocation (.searchC "Sales" "west" 20 0 (.ok ())
        (.ok ⟨[], [], 0, 0, 0⟩))).2.stdout
      = [.line "[dim]No results for \"west\" in Sales.[/dim]"] :=
  ⟨rfl, (search_no_results "Sales" "west" 20 0 ⟨[], [], 0, 0, 0⟩ rfl).1,
    (search_no_results "Sales" "west" 20 0 ⟨[], [], 0, 0, 0⟩ rfl).2.1⟩

/-- C6.  `execute` with a format and no explicit output path makes its
remote call with the output path defaulted to `<predicate>.<format>`. -/
theorem execute_default_output_path (predicate : String) (limit offset : Int)
    (f : Fmt) (rf : Except String Nat) (rt : Except String QueryResult) :
    (runInvocation (.executeC predicate limit offset (some f) none (.ok ())
        rf rt)).2.remoteCalls
      = [.executeFile predicate f.ext limit offset
          (predicate ++ "." ++ f.ext)] := by
  cases rf <;>
    simp only [runInvocation, runExecute, getClient, newClient,
      tryExceptFinally, remote, errorExit, printErr, printOut, sysExit,
      closeClient, Bind.bind, M.bind, Pure.pure, M.pure, Trace.init, bind,
      pure, truthyStr] <;> rfl

/-- C7.  Every rendered row has exactly one cell per column, and a
null/missing cell value renders as the distinct `"null"` placeholder in
dim-italic style — never the empty string, never a dropped column. -/
theorem renderRow_null_placeholder (cols : List Column) (row : Row) (i : Nat)
    (h : i < cols.length)
    (hmiss : rowGet row (cols[i]).name = none) :
    (renderRow cols row).length = cols.length ∧
    (renderRow cols row)[i]? = some ⟨"null".toList, .dimItalic⟩ ∧
    "null".toList ≠ [] ∧ Style.dimItalic ≠ Style.plain := by
  refine ⟨by simp [renderRow], ?_, by decide, by decide⟩
  rw [renderRow, List.getElem?_map, List.getElem?_eq_getElem h,
    Option.map_some', hmiss]
  rfl

/-- C7, witness: a row lacking the only column renders a `"null"` cell. -/
theorem renderRow_null_placeholder_witness :
    (0 < ([⟨"amount"⟩] : List Column).length) ∧
    rowGet ([] : Row) "amount" = none ∧
    (renderRow [⟨"amount"⟩] ([] : Row)).length = 1 ∧
    (renderRow [⟨"amount"⟩] ([] : Row))[0]?
      = some ⟨"null".toList, .dimItalic⟩ :=
  ⟨by decide, by decide,
    (renderRow_null_placeholder [⟨"amount"⟩] [] 0 (by decide) (by decide)).1,
    (renderRow_null_placeholder [⟨"amount"⟩] [] 0 (by decide)
      (by decide)).2.1⟩

/-- C8, counterexample.  Neither `--limit` nor `--offset` is validated for
non-negativity: a supplied `-5` resolves to `-5` and is passed verbatim to
the remote search call. -/
theorem query_params_nonneg_counterexample :
    resolveLimit (some (-5)) < 0 ∧
    (runInvocation (.searchC "Sales" "west" (resolveLimit (some (-5)))
        (resolveOffset none) (.ok ()) (.ok ⟨[], [], 0, 0, 0⟩))).2.remoteCalls
      = [.searchR "Sales" "west" (-5) 0] := by decide

/-- C8, amended.  `limit` and `offset` are integers (the code enforces no
non-negativity): when not supplied they default to 20 and 0, and whatever
values they resolve to are passed through unchanged to the remote
`execute`/`search` call. -/
theorem query_param_defaults (l o : Option Int) (predicate keywords : String)
    (q : Except String QueryResult) (rf : Except String Nat) :
    resolveLimit none = 20 ∧ resolveOffset none = 0 ∧
    (runInvocation (.searchC predicate keywords (resolveLimit l)
        (resolveOffset o) (.ok ()) q)).2.remoteCalls
      = [.searchR predicate keywords (resolveLimit l) (resolveOffset o)] ∧
    (runInvocation (.executeC predicate (resolveLimit l) (resolveOffset o)
        none none (.ok ()) rf q)).2.remoteCalls
      = [.executeTable predicate (resolveLimit l) (resolveOffset o)] := by
  have husage : ¬((truthyStr (none : Option String)
      && (none : Option Fmt).isNone) = true) := by decide
  refine ⟨rfl, rfl, ?_, ?_⟩
  · cases q <;>
      simp only [runInvocation, runSearch, getClient, newClient,
        tryExceptFinally, remote, errorExit, printErr, printOut, sysExit,
        closeClient, Bind.bind, M.bind, Pure.pure, M.pure, Trace.init, bind,
        pure] <;>
      (try split) <;> rfl
  · cases q <;>
      simp only [runInvocation, runExecute, husage, getClient, newClient,
        tryExceptFinally, remote, errorExit, printErr, printOut, sysExit,
        closeClient, Bind.bind, M.bind, Pure.pure, M.pure, Trace.init, bind,
        pure, if_false, Bool.false_eq_true, ite_false] <;>
      (try split) <;> rfl

/-- C10.  `execute` without a format whose result has zero rows prints the
"No rows in <predicate>." message naming the predicate and exits with
status 0 — the same non-error empty-result behaviour as `search`. -/
theorem execute_no_rows_message (predicate : String) (limit offset : Int)
    (rf : Except String Nat) (q : QueryResult) (hq : q.rows = []) :
    (runInvocation (.executeC predicate limit offset none none (.ok ()) rf
        (.ok q))).1 = .ok () ∧
    (runInvocation (.executeC predicate limit offset none none (.ok ()) rf
        (.ok q))).2.stdout
      = [.line ("[dim]No rows in " ++ predicate ++ ".[/dim]")] := by
  have husage : ¬((truthyStr (none : Option String)
      && (none : Option Fmt).isNone) = true) := by decide
  refine ⟨?_, ?_⟩ <;>
    simp only [runInvocation, runExecute, husage, getClient, newClient,
      tryExceptFinally, remote, errorExit, printErr, printOut, sysExit,
      closeClient, Bind.bind, M.bind, Pure.pure, M.pure, Trace.init, bind,
      pure, if_false, Bool.false_eq_true, ite_false, hq, if_pos] <;> rfl

/-- C10, witness: an empty `execute` table result exits 0 with the
message. -/
theorem execute_no_rows_message_witness :
    (QueryResult.mk [] [] 0 0 0).rows = [] ∧
    (runInvocation (.executeC "Sales" 20 0 none none (.ok ()) (.ok 0)
        (.ok ⟨[], [], 0, 0, 0⟩))).1 = .ok () ∧
    (runInvocation (.executeC "Sales" 20 0 none none (.ok ()) (.ok 0)
        (.ok ⟨[], [], 0, 0, 0⟩))).2.stdout
      = [.line "[dim]No rows in Sales.[/dim]"] :=
  ⟨rfl, (execute_no_rows_message "Sales" 20 0 (.ok 0) ⟨[], [], 0, 0, 0⟩
      rfl).1,
    (execute_no_rows_message "Sales" 20 0 (.ok 0) ⟨[], [], 0, 0, 0⟩
      rfl).2⟩

end SynalinksCLI
